import Mathlib

/-!
Shallow embedding of the transcription request client of this repository
(`src/utils/openai.ts`): audio payload normalisation, the health probe,
the two backend retry loops (`transcribeAudioRemote`, `transcribeAudio`),
their error classification chains, and the per-word speaker heuristic.

Modelling conventions:
* JavaScript `Error` objects become `JsError` (name, message).
* `String.prototype.includes` becomes `jsIncludes`.
* Each POST attempt's outside world (fetch result / thrown exception)
  is an explicit `PostOutcome` (resp. `VendorAttempt`) supplied as a
  function of the attempt number; the loop itself is deterministic.
* HTTP requests are counted in the returned trace instead of performed.
* Word timestamps are rationals.
-/

/-- Character-list version of JavaScript `startsWith`: does the second list
begin with the first one. -/
def startsWithChars : List Char → List Char → Bool
  | [], _ => true
  | _ :: _, [] => false
  | a :: as, b :: bs => a = b && startsWithChars as bs

/-- Does some suffix of the haystack start with the needle. -/
def charsContain (needle : List Char) : List Char → Bool
  | [] => startsWithChars needle []
  | c :: cs => startsWithChars needle (c :: cs) || charsContain needle cs

/-- JavaScript `hay.includes(needle)`. -/
def jsIncludes (hay needle : String) : Bool :=
  charsContain needle.data hay.data

/-- A JavaScript `Error`: its `name` and its `message`. -/
structure JsError where
  name : String
  message : String
deriving Repr, DecidableEq

/-- `const MAX_FILE_SIZE = 25 * 1024 * 1024` (line 5). -/
def MAX_FILE_SIZE : Nat := 25 * 1024 * 1024

/-- `checkApiHealth` (lines 16-37): the probe input is `none` when the GET
`fetch` itself rejected, `some status` when an HTTP response came back.
The function returns `response.status !== 405` on a response and `false`
on an exception. -/
def checkApiHealth (probe : Option Nat) : Bool :=
  match probe with
  | none => false
  | some status => status != 405

/-- Audio handle on the web platform: a `Blob`, a `data:` URI (decoded
locally), or a regular URL that has to be fetched (`fetchOk` is
`response.ok` of that fetch, `statusText` its status text). `size` is the
byte length of the resulting blob. -/
inductive WebAudio where
  | blob (size : Nat)
  | dataUri (size : Nat)
  | url (fetchOk : Bool) (statusText : String) (size : Nat)
deriving Repr, DecidableEq

/-- Audio handle on the native platform: a file URI; `present` is
`fileInfo.exists`, `size` the file size in bytes. -/
structure NativeAudio where
  present : Bool
  size : Nat
deriving Repr, DecidableEq

/-- The audio argument together with `Platform.OS`. -/
inductive AudioInput where
  | web (a : WebAudio)
  | native (a : NativeAudio)
deriving Repr, DecidableEq

/-- Web-platform size validation (lines 79-85 / 284-290): oversize is
checked first, then emptiness. -/
def validateWebSize (size : Nat) : Except JsError Unit :=
  if size > MAX_FILE_SIZE then
    .error ⟨"Error", "Le fichier audio est trop volumineux. La taille maximale est de 25 Mo."⟩
  else if size = 0 then
    .error ⟨"Error", "Le fichier audio est vide. Veuillez réenregistrer votre audio."⟩
  else
    .ok ()

/-- Body of the web-platform `try` block (lines 60-87 / 265-292), before
its `catch` rewraps the error. -/
def processAudioWebInner : WebAudio → Except JsError Unit
  | .blob size => validateWebSize size
  | .dataUri size => validateWebSize size
  | .url fetchOk statusText size =>
      if fetchOk then validateWebSize size
      else .error ⟨"Error", "Failed to fetch audio file: " ++ statusText⟩

/-- Body of the native-platform `try` block (lines 94-112 / 299-317),
before its `catch` rewraps the error: existence, then emptiness, then
oversize. -/
def processAudioNativeInner (a : NativeAudio) : Except JsError Unit :=
  if ¬ a.present then .error ⟨"Error", "Le fichier audio est introuvable"⟩
  else if a.size = 0 then .error ⟨"Error", "Le fichier audio est vide"⟩
  else if a.size > MAX_FILE_SIZE then
    .error ⟨"Error", "Le fichier audio est trop volumineux. La taille maximale est de 25 Mo."⟩
  else .ok ()

/-- The generic message each platform's `catch` substitutes for whatever
was thrown inside its `try` (lines 88-91 / 114-117, identical in
`transcribeAudio`). -/
def normalizerWrapError : AudioInput → JsError
  | .web _ => ⟨"Error", "Erreur lors du traitement du fichier audio. Veuillez réenregistrer votre audio."⟩
  | .native _ => ⟨"Error", "Erreur lors du traitement du fichier audio sur mobile."⟩

/-- The payload-preparation block shared verbatim by both backends: the
platform branch, each wrapped in a catch-all that replaces any thrown
error with the platform's generic message. -/
def processAudio (audio : AudioInput) : Except JsError Unit :=
  match audio with
  | .web a =>
      match processAudioWebInner a with
      | .ok _ => .ok ()
      | .error _ => .error (normalizerWrapError (.web a))
  | .native a =>
      match processAudioNativeInner a with
      | .ok _ => .ok ()
      | .error _ => .error (normalizerWrapError (.native a))

/-- Outbound HTTP requests issued while preparing the payload: one fetch
for a web URL handle (a `data:` URI and a `Blob` are resolved locally;
`FileSystem.getInfoAsync` is a filesystem call). -/
def audioGetsOf : AudioInput → Nat
  | .web (.url _ _ _) => 1
  | _ => 0

/-- The spec's closed error taxonomy (§7). -/
inductive Category where
  | invalidAudio
  | payloadTooLarge
  | authenticationError
  | serviceNotFound
  | methodNotAllowed
  | serviceUnavailable
  | rateLimited
  | timeout
  | networkUnreachable
  | quotaExceeded
  | unknown
deriving Repr, DecidableEq

/-- The raw failure signal a `catch (error)` receives: `error.name`,
whether `error.reason === 'timeout'`, and `error.message`. -/
structure RawErr where
  name : String
  timedOut : Bool
  message : String
deriving Repr, DecidableEq

/-- What one remote POST attempt meets in the outside world: either the
`fetch` rejects with an exception, or an HTTP response arrives carrying a
status, an error-body message (the code's `errorData.error?.message ||
errorText`) and, when the response is OK, the JSON `transcription`
field. -/
inductive PostOutcome where
  | exn (name : String) (timedOut : Bool) (message : String)
  | http (status : Nat) (body : String) (transcription : Option String)
deriving Repr, DecidableEq

/-- Status-code mapping of the remote backend (lines 154-167). -/
def remoteStatusMessage (status : Nat) (body : String) : String :=
  if status = 0 ∨ 500 ≤ status then "SERVICE_UNAVAILABLE"
  else if status = 404 then "SERVICE_NOT_FOUND"
  else if status = 401 ∨ status = 403 then "AUTHENTICATION_ERROR"
  else if status = 405 then "METHOD_NOT_ALLOWED"
  else "API request failed with status " ++ toString status ++ ": " ++ body

/-- One remote POST attempt's `try` body (lines 126-177): a thrown
exception propagates; a non-OK response throws the status-mapped error;
an OK response without a (truthy) `transcription` field throws; otherwise
the transcription is returned. -/
def remoteAttempt (o : PostOutcome) : Except RawErr String :=
  match o with
  | .exn name timedOut message => .error ⟨name, timedOut, message⟩
  | .http status body transcription =>
      if 200 ≤ status ∧ status ≤ 299 then
        match transcription with
        | some t =>
            if t = "" then .error ⟨"Error", false, "Aucune transcription reçue de l'API."⟩
            else .ok t
        | none => .error ⟨"Error", false, "Aucune transcription reçue de l'API."⟩
      else .error ⟨"Error", false, remoteStatusMessage status body⟩

/-- The remote `catch` block's `lastError` (lines 181-190): an abort or a
timeout reason is replaced by a fixed French message; anything else is
kept as-is. -/
def remoteLastError (r : RawErr) : JsError :=
  if r.name = "AbortError" ∨ r.timedOut then
    ⟨"Error", "Délai d'attente dépassé - Le service de transcription met trop de temps à répondre"⟩
  else ⟨r.name, r.message⟩

/-- The remote never-retry check on `lastError.message` (lines 192-200). -/
def remoteNoRetrySet (msg : String) : Bool :=
  msg = "AUTHENTICATION_ERROR" || msg = "SERVICE_NOT_FOUND" ||
  msg = "METHOD_NOT_ALLOWED" || jsIncludes msg "413" ||
  jsIncludes msg "Payload Too Large"

/-- The remote network-error check (lines 202-209): note it reads the
original exception's `name` but `lastError`'s message. -/
def remoteIsNetworkError (r : RawErr) (msg : String) : Bool :=
  r.name = "AbortError" || r.name = "TypeError" ||
  msg = "SERVICE_UNAVAILABLE" || jsIncludes msg "Failed to fetch" ||
  jsIncludes msg "Network" || jsIncludes msg "ECONNREFUSED" ||
  jsIncludes msg "timeout"

/-- Whether the remote loop retries a failed attempt (attempts remaining
aside): not in the never-retry set and a network-class error. -/
def remoteWillRetry (r : RawErr) : Bool :=
  !(remoteNoRetrySet (remoteLastError r).message) &&
  remoteIsNetworkError r (remoteLastError r).message

/-- The remote backoff delay recorded at line 216:
`Math.min(1000 * attempt, 3000)`. -/
def remoteBackoffDelay (attempt : Nat) : Nat :=
  min (1000 * attempt) 3000

/-- The branch of the remote final classification chain (lines 222-243)
that `lastError` selects, as a taxonomy category. -/
def remoteFinalBranch (e : JsError) : Category :=
  if e.message = "AUTHENTICATION_ERROR" then .authenticationError
  else if e.message = "SERVICE_NOT_FOUND" then .serviceNotFound
  else if e.message = "METHOD_NOT_ALLOWED" then .methodNotAllowed
  else if e.message = "SERVICE_UNAVAILABLE" then .serviceUnavailable
  else if e.name = "AbortError" || jsIncludes e.message "timeout" then .timeout
  else if e.name = "TypeError" || jsIncludes e.message "Failed to fetch" then .networkUnreachable
  else if jsIncludes e.message "429" || jsIncludes e.message "Too Many Requests" then .rateLimited
  else if jsIncludes e.message "413" || jsIncludes e.message "Payload Too Large" then .payloadTooLarge
  else .unknown

/-- The error the remote function finally throws for a given `lastError`
(lines 222-243), one fixed message per chain branch and the generic
wrapper otherwise. -/
def remoteFinalThrow (e : JsError) : JsError :=
  match remoteFinalBranch e with
  | .authenticationError => ⟨"Error", "Erreur d'authentification API. Veuillez vérifier votre clé API dans les paramètres."⟩
  | .serviceNotFound => ⟨"Error", "Service de transcription introuvable. Veuillez contacter le support."⟩
  | .methodNotAllowed => ⟨"Error", "Configuration du service incorrecte. Veuillez contacter le support technique."⟩
  | .serviceUnavailable => ⟨"Error", "Le service de transcription est temporairement indisponible. Veuillez réessayer plus tard."⟩
  | .timeout => ⟨"Error", "Délai d'attente dépassé. Le service met trop de temps à répondre. Veuillez réessayer."⟩
  | .networkUnreachable => ⟨"Error", "Impossible de se connecter au service de transcription. Vérifiez votre connexion internet ou essayez le mode local."⟩
  | .rateLimited => ⟨"Error", "Limite de requêtes API atteinte. Veuillez réessayer plus tard."⟩
  | .payloadTooLarge => ⟨"Error", "Le fichier audio est trop volumineux. Veuillez réduire sa taille."⟩
  | _ => ⟨"Error", "Erreur lors de la transcription: " ++ e.message⟩

/-- Trace of one retry loop: its result, how many POSTs it issued and the
backoff delays it slept. -/
structure RunTrace (α : Type) where
  result : Except JsError α
  posts : Nat
  delays : List Nat
deriving Repr

/-- `const maxRetries = 2` of the remote loop (line 122). -/
def remoteMaxRetries : Nat := 2

/-- The remote retry loop (lines 125-220 plus the final classification):
`attempt` is the 1-based attempt counter, `fuel` the remaining loop
iterations. A success returns; a failure breaks (and is finally
classified) unless it is retryable and attempts remain, in which case the
loop sleeps `remoteBackoffDelay attempt` and continues. -/
def remoteLoopAux (outcomes : Nat → PostOutcome) (attempt : Nat) :
    Nat → RunTrace String
  | 0 => ⟨.error ⟨"Error", "Échec de la transcription après plusieurs tentatives."⟩, 0, []⟩
  | fuel + 1 =>
      match remoteAttempt (outcomes attempt) with
      | .ok t => ⟨.ok t, 1, []⟩
      | .error r =>
          if remoteWillRetry r ∧ attempt ≠ remoteMaxRetries then
            let rest := remoteLoopAux outcomes (attempt + 1) fuel
            ⟨rest.result, rest.posts + 1, remoteBackoffDelay attempt :: rest.delays⟩
          else
            ⟨.error (remoteFinalThrow (remoteLastError r)), 1, []⟩

/-- Entry point of the remote retry loop: first attempt 1, at most
`remoteMaxRetries` iterations. -/
def remoteLoop (outcomes : Nat → PostOutcome) : RunTrace String :=
  remoteLoopAux outcomes 1 remoteMaxRetries

/-- Trace of a whole transcription call: result, health-probe GETs,
audio-content fetches, transcription POSTs and backoff delays. -/
structure CallTrace (α : Type) where
  result : Except JsError α
  healthGets : Nat
  audioGets : Nat
  posts : Nat
  delays : List Nat
deriving Repr

/-- Input of one `transcribeAudioRemote` call: the API key, the health
probe's result, the audio handle, and the outside world of each POST
attempt. -/
structure RemoteCall where
  apiKey : String
  probe : Option Nat
  audio : AudioInput
  outcomes : Nat → PostOutcome

/-- `transcribeAudioRemote` (lines 39-252): missing key fails first; the
health probe always runs next and short-circuits when `checkApiHealth`
is false; then the payload block; then the retry loop. The outer catch
rethrows errors unchanged. -/
def transcribeAudioRemote (c : RemoteCall) : CallTrace String :=
  if c.apiKey = "" then
    ⟨.error ⟨"Error", "Clé API manquante pour la transcription distante."⟩, 0, 0, 0, []⟩
  else if ¬ checkApiHealth c.probe then
    ⟨.error ⟨"Error", "Le service de transcription est temporairement indisponible. Veuillez réessayer plus tard ou utiliser le mode local."⟩, 1, 0, 0, []⟩
  else
    match processAudio c.audio with
    | .error e => ⟨.error e, 1, audioGetsOf c.audio, 0, []⟩
    | .ok _ =>
        let r := remoteLoop c.outcomes
        ⟨r.result, 1, audioGetsOf c.audio, r.posts, r.delays⟩

/-- A speaker entry supplied by the UI; the heuristic only reads `.id`. -/
structure Speaker where
  id : String
deriving Repr, DecidableEq

/-- One word of the verbose Whisper response: `word.text`, `word.start`
and `word.end` (the latter renamed `end_` for Lean). -/
structure Word where
  text : String
  start : ℚ
  end_ : ℚ
deriving Repr, DecidableEq

/-- One entry of `processedWords` (lines 385-390). -/
structure ProcessedWord where
  text : String
  startTime : ℚ
  endTime : ℚ
  speakerId : Option String
deriving Repr, DecidableEq

/-- The speaker-heuristic loop body (lines 379-393): `cur` is
`currentSpeakerId`, `t` is `currentTime`, `k` counts the `Math.random()`
draws consumed so far and `rand` supplies `Math.floor(Math.random() *
speakers.length)` for each draw. A gap strictly greater than 2 seconds
reassigns the current speaker to `speakers[rand k]?.id` before the word
is pushed; `currentTime` then becomes the word's end. -/
def processWordsAux (speakers : List Speaker) (rand : Nat → Nat) :
    List Word → Option String → ℚ → Nat → List ProcessedWord
  | [], _, _, _ => []
  | w :: ws, cur, t, k =>
      if w.start - t > 2 then
        let cur2 := (speakers.get? (rand k)).map Speaker.id
        ⟨w.text, w.start, w.end_, cur2⟩ :: processWordsAux speakers rand ws cur2 w.end_ (k + 1)
      else
        ⟨w.text, w.start, w.end_, cur⟩ :: processWordsAux speakers rand ws cur w.end_ k

/-- The word post-processing of `transcribeAudio` (lines 374-393): the
current speaker starts as `speakers[0]?.id` and the time at 0. -/
def processWords (speakers : List Speaker) (rand : Nat → Nat)
    (words : List Word) : List ProcessedWord :=
  processWordsAux speakers rand words ((speakers.get? 0).map Speaker.id) 0 0

/-- All inter-word gaps starting from time `t` are strictly below 2
seconds (each word's start minus the previous word's end, the first
measured from `t`). -/
def gapsLT2 (t : ℚ) : List Word → Bool
  | [] => true
  | w :: ws => decide (w.start - t < 2) && gapsLT2 w.end_ ws

/-- What the whisper POST of `transcribeAudio` meets in the outside
world: a rejected fetch, or an HTTP response with status, error-body
message and — when OK — the JSON `text` and `words` fields. -/
inductive VendorFetch where
  | exn (name : String) (timedOut : Bool) (message : String)
  | http (status : Nat) (body : String) (text : Option String) (words : List Word)
deriving Repr, DecidableEq

/-- Result of the cleanup `chat.completions.create` call (lines 395-409):
either it throws, or it returns `completion.choices[0]?.message?.content`
(possibly absent). -/
inductive CleanupOutcome where
  | exn (name : String) (message : String)
  | ok (content : Option String)
deriving Repr, DecidableEq

/-- The outside world of one vendor attempt: the whisper POST outcome and
the cleanup call's outcome (the latter only reached when the POST
succeeds with a truthy `text`). -/
structure VendorAttempt where
  fetch : VendorFetch
  cleanup : CleanupOutcome

/-- JavaScript `formattedText || transcriptionResponse.text` (line 413):
`undefined`, `null` and the empty string all fall back to the raw
text. -/
def jsOrElse (content : Option String) (t : String) : String :=
  match content with
  | some s => if s = "" then t else s
  | none => t

/-- One vendor attempt's `try` body (lines 335-415): a thrown exception
propagates; a non-OK response throws the generic status message (no
status special-casing in this backend); an OK response without a truthy
`text` throws; otherwise the words are processed, the cleanup call runs
(its exception propagates), and the transcript falls back to the raw
text when the cleanup content is falsy. -/
def vendorAttempt (speakers : List Speaker) (rand : Nat → Nat)
    (a : VendorAttempt) : Except RawErr (String × List ProcessedWord) :=
  match a.fetch with
  | .exn name timedOut message => .error ⟨name, timedOut, message⟩
  | .http status body text words =>
      if 200 ≤ status ∧ status ≤ 299 then
        match text with
        | some t =>
            if t = "" then .error ⟨"Error", false, "Aucun texte reçu de l'API Whisper."⟩
            else
              let processed := processWords speakers rand words
              match a.cleanup with
              | .exn n m => .error ⟨n, false, m⟩
              | .ok content => .ok (jsOrElse content t, processed)
        | none => .error ⟨"Error", false, "Aucun texte reçu de l'API Whisper."⟩
      else
        .error ⟨"Error", false, "API request failed with status " ++ toString status ++ ": " ++ body⟩

/-- The vendor `catch` block's `lastError` (lines 420-429). -/
def vendorLastError (r : RawErr) : JsError :=
  if r.name = "AbortError" ∨ r.timedOut then
    ⟨"Error", "Délai d'attente dépassé - L'API OpenAI met trop de temps à répondre"⟩
  else ⟨r.name, r.message⟩

/-- The vendor retryable check (lines 431-436): message substrings on
`lastError`, plus the original exception's name. -/
def vendorIsRetryable (r : RawErr) (msg : String) : Bool :=
  jsIncludes msg "Network" || jsIncludes msg "ECONNREFUSED" ||
  jsIncludes msg "timeout" || jsIncludes msg "Failed to fetch" ||
  r.name = "AbortError"

/-- Whether the vendor loop retries a failed attempt (attempts remaining
aside). -/
def vendorWillRetry (r : RawErr) : Bool :=
  vendorIsRetryable r (vendorLastError r).message

/-- The vendor backoff delay recorded at line 443:
`Math.min(Math.pow(2, attempt) * 1000, 10000)`. -/
def vendorBackoffDelay (attempt : Nat) : Nat :=
  min (2 ^ attempt * 1000) 10000

/-- The branch of the vendor final classification chain (lines 449-466)
that `lastError` selects, as a taxonomy category. -/
def vendorFinalBranch (e : JsError) : Category :=
  if jsIncludes e.message "401" || jsIncludes e.message "Unauthorized" then .authenticationError
  else if jsIncludes e.message "429" || jsIncludes e.message "Too Many Requests" then .rateLimited
  else if jsIncludes e.message "insufficient_quota" then .quotaExceeded
  else if jsIncludes e.message "Network" || jsIncludes e.message "Failed to fetch" then .networkUnreachable
  else if jsIncludes e.message "413" || jsIncludes e.message "Payload Too Large" then .payloadTooLarge
  else if jsIncludes e.message "timeout" then .timeout
  else .unknown

/-- The error the vendor function finally throws for a given `lastError`
(lines 449-466): one fixed message per chain branch, and `lastError`
itself rethrown otherwise. -/
def vendorFinalThrow (e : JsError) : JsError :=
  match vendorFinalBranch e with
  | .authenticationError => ⟨"Error", "Erreur d'authentification API. Veuillez vérifier votre clé API."⟩
  | .rateLimited => ⟨"Error", "Limite de requêtes API atteinte. Veuillez réessayer plus tard."⟩
  | .quotaExceeded => ⟨"Error", "Quota API insuffisant. Veuillez vérifier votre abonnement OpenAI."⟩
  | .networkUnreachable => ⟨"Error", "Erreur de connexion réseau. Veuillez vérifier votre connexion internet et réessayer."⟩
  | .payloadTooLarge => ⟨"Error", "Le fichier audio est trop volumineux. Veuillez réduire sa taille."⟩
  | .timeout => ⟨"Error", "Timeout - OpenAI API met trop de temps à répondre. Veuillez réessayer."⟩
  | _ => e

/-- `const maxRetries = 3` of the vendor loop (line 331). -/
def vendorMaxRetries : Nat := 3

/-- The vendor retry loop (lines 334-447 plus the final classification),
analogous to `remoteLoopAux`. -/
def vendorLoopAux (speakers : List Speaker) (rand : Nat → Nat)
    (attempts : Nat → VendorAttempt) (attempt : Nat) :
    Nat → RunTrace (String × List ProcessedWord)
  | 0 => ⟨.error ⟨"Error", "Échec de la transcription après plusieurs tentatives."⟩, 0, []⟩
  | fuel + 1 =>
      match vendorAttempt speakers rand (attempts attempt) with
      | .ok res => ⟨.ok res, 1, []⟩
      | .error r =>
          if vendorWillRetry r ∧ attempt ≠ vendorMaxRetries then
            let rest := vendorLoopAux speakers rand attempts (attempt + 1) fuel
            ⟨rest.result, rest.posts + 1, vendorBackoffDelay attempt :: rest.delays⟩
          else
            ⟨.error (vendorFinalThrow (vendorLastError r)), 1, []⟩

/-- Entry point of the vendor retry loop. -/
def vendorLoop (speakers : List Speaker) (rand : Nat → Nat)
    (attempts : Nat → VendorAttempt) : RunTrace (String × List ProcessedWord) :=
  vendorLoopAux speakers rand attempts 1 vendorMaxRetries

/-- Input of one `transcribeAudio` call. -/
structure VendorCall where
  apiKey : String
  audio : AudioInput
  speakers : List Speaker
  rand : Nat → Nat
  attempts : Nat → VendorAttempt

/-- `transcribeAudio` (lines 254-474): missing key fails first, then the
payload block (identical to the remote one), then the retry loop; there
is no health probe. The outer catch rethrows errors unchanged. -/
def transcribeAudio (c : VendorCall) : CallTrace (String × List ProcessedWord) :=
  if c.apiKey = "" then
    ⟨.error ⟨"Error", "Clé API OpenAI invalide ou manquante. Veuillez vérifier votre configuration."⟩, 0, 0, 0, []⟩
  else
    match processAudio c.audio with
    | .error e => ⟨.error e, 0, audioGetsOf c.audio, 0, []⟩
    | .ok _ =>
        let r := vendorLoop c.speakers c.rand c.attempts
        ⟨r.result, 0, audioGetsOf c.audio, r.posts, r.delays⟩

/-- Byte length of the audio an input refers to. -/
def audioSize : AudioInput → Nat
  | .web (.blob s) => s
  | .web (.dataUri s) => s
  | .web (.url _ _ s) => s
  | .native a => a.size

/-- Whether the audio content is reachable at all: the URL fetch
succeeded, resp. the file exists. -/
def audioReadable : AudioInput → Bool
  | .web (.url fetchOk _ _) => fetchOk
  | .web _ => true
  | .native a => a.present

/-- A prefix match survives extending the haystack on the right. -/
theorem startsWithChars_append (n t ys : List Char)
    (h : startsWithChars n t = true) : startsWithChars n (t ++ ys) = true := by
  induction n generalizing t with
  | nil => rfl
  | cons a as ih =>
      cases t with
      | nil => simp [startsWithChars] at h
      | cons b bs =>
          simp only [startsWithChars, Bool.and_eq_true] at h ⊢
          exact ⟨h.1, ih bs h.2⟩

/-- The empty needle is contained in every haystack. -/
theorem charsContain_nil (ys : List Char) : charsContain [] ys = true := by
  cases ys <;> simp [charsContain, startsWithChars]

/-- Containment survives extending the haystack on the right. -/
theorem charsContain_append (n xs ys : List Char)
    (h : charsContain n xs = true) : charsContain n (xs ++ ys) = true := by
  induction xs with
  | nil =>
      cases n with
      | nil => simpa using charsContain_nil ys
      | cons a as => simp [charsContain, startsWithChars] at h
  | cons c cs ih =>
      simp only [charsContain, Bool.or_eq_true] at h
      rcases h with h | h
      · simp only [List.cons_append, charsContain, Bool.or_eq_true]
        exact Or.inl (startsWithChars_append _ _ _ h)
      · simp only [List.cons_append, charsContain, Bool.or_eq_true]
        exact Or.inr (ih h)

/-- `includes` survives appending to the haystack. -/
theorem jsIncludes_append_left (s b n : String)
    (h : jsIncludes s n = true) : jsIncludes (s ++ b) n = true := by
  unfold jsIncludes at h ⊢
  rw [String.data_append s b]
  exact charsContain_append _ _ _ h

/-- A remote attempt that succeeds ends the loop at once. -/
theorem remoteLoopAux_ok (outcomes : Nat → PostOutcome) (attempt fuel : Nat)
    (t : String) (ho : remoteAttempt (outcomes attempt) = .ok t) :
    remoteLoopAux outcomes attempt (fuel + 1) = ⟨.ok t, 1, []⟩ := by
  simp [remoteLoopAux, ho]

/-- A remote attempt that fails non-retryably breaks and is finally
classified. -/
theorem remoteLoopAux_break (outcomes : Nat → PostOutcome) (attempt fuel : Nat)
    (r : RawErr) (ho : remoteAttempt (outcomes attempt) = .error r)
    (hr : remoteWillRetry r = false) :
    remoteLoopAux outcomes attempt (fuel + 1) =
      ⟨.error (remoteFinalThrow (remoteLastError r)), 1, []⟩ := by
  simp [remoteLoopAux, ho, hr]

/-- A remote attempt that fails retryably with attempts remaining sleeps
and recurses. -/
theorem remoteLoopAux_retry (outcomes : Nat → PostOutcome) (attempt fuel : Nat)
    (r : RawErr) (ho : remoteAttempt (outcomes attempt) = .error r)
    (hr : remoteWillRetry r = true) (ha : attempt ≠ remoteMaxRetries) :
    remoteLoopAux outcomes attempt (fuel + 1) =
      ⟨(remoteLoopAux outcomes (attempt + 1) fuel).result,
        (remoteLoopAux outcomes (attempt + 1) fuel).posts + 1,
        remoteBackoffDelay attempt :: (remoteLoopAux outcomes (attempt + 1) fuel).delays⟩ := by
  simp [remoteLoopAux, ho, hr, ha]

/-- A vendor attempt that succeeds ends the loop at once. -/
theorem vendorLoopAux_ok (speakers : List Speaker) (rand : Nat → Nat)
    (attempts : Nat → VendorAttempt) (attempt fuel : Nat)
    (res : String × List ProcessedWord)
    (ho : vendorAttempt speakers rand (attempts attempt) = .ok res) :
    vendorLoopAux speakers rand attempts attempt (fuel + 1) = ⟨.ok res, 1, []⟩ := by
  simp [vendorLoopAux, ho]

/-- A vendor attempt that fails non-retryably breaks and is finally
classified. -/
theorem vendorLoopAux_break (speakers : List Speaker) (rand : Nat → Nat)
    (attempts : Nat → VendorAttempt) (attempt fuel : Nat) (r : RawErr)
    (ho : vendorAttempt speakers rand (attempts attempt) = .error r)
    (hr : vendorWillRetry r = false) :
    vendorLoopAux speakers rand attempts attempt (fuel + 1) =
      ⟨.error (vendorFinalThrow (vendorLastError r)), 1, []⟩ := by
  simp [vendorLoopAux, ho, hr]

/-- An oversized but readable payload makes the shared preparation block
fail with the platform's generic wrap message. -/
theorem processAudio_oversized (audio : AudioInput)
    (hr : audioReadable audio = true) (hs : MAX_FILE_SIZE < audioSize audio) :
    processAudio audio = .error (normalizerWrapError audio) := by
  cases audio with
  | web a =>
      cases a with
      | blob s =>
          simp only [audioSize] at hs
          simp [processAudio, processAudioWebInner, validateWebSize, hs]
      | dataUri s =>
          simp only [audioSize] at hs
          simp [processAudio, processAudioWebInner, validateWebSize, hs]
      | url fetchOk st s =>
          simp only [audioSize] at hs
          simp only [audioReadable] at hr
          simp [processAudio, processAudioWebInner, validateWebSize, hr, hs]
  | native a =>
      simp only [audioSize] at hs
      simp only [audioReadable] at hr
      have hz : a.size ≠ 0 := by omega
      simp [processAudio, processAudioNativeInner, hr, hz, hs]

/-- C1: the claim says the health probe short-circuits to
ServiceUnavailable exactly on a non-success, non-405 response, and that a
405 lets the POST attempts proceed. The code computes
`response.status !== 405`, the exact inversion: a 405 probe is reported
unhealthy (the call short-circuits with zero POSTs) while a 500 probe is
reported healthy (the POSTs proceed and can succeed), contradicting the
code's own comment that 405 means the service is reachable. -/
theorem c1_health_probe_inverted :
    checkApiHealth (some 405) = false ∧
    checkApiHealth (some 500) = true ∧
    checkApiHealth (some 200) = true ∧
    transcribeAudioRemote ⟨"key", some 405, .native ⟨true, 5⟩, fun _ => .http 200 "" (some "ok")⟩ =
      ⟨.error ⟨"Error", "Le service de transcription est temporairement indisponible. Veuillez réessayer plus tard ou utiliser le mode local."⟩, 1, 0, 0, []⟩ ∧
    transcribeAudioRemote ⟨"key", some 500, .native ⟨true, 5⟩, fun _ => .http 200 "" (some "ok")⟩ =
      ⟨.ok "ok", 1, 0, 1, []⟩ :=
  ⟨rfl, rfl, rfl, rfl, rfl⟩

/-- C2, counterexample: an over-25-MiB payload on the RemoteRelay backend
still triggers the health-probe GET (one outbound HTTP request) before
the size check rejects, so "zero HTTP requests of any kind" is false —
though no POST is ever issued. -/
theorem c2_health_get_issued_for_oversized :
    MAX_FILE_SIZE < 27262976 ∧
    (transcribeAudioRemote ⟨"key", some 200, .native ⟨true, 27262976⟩, fun _ => .exn "Error" false "x"⟩).healthGets = 1 ∧
    (transcribeAudioRemote ⟨"key", some 200, .native ⟨true, 27262976⟩, fun _ => .exn "Error" false "x"⟩).posts = 0 ∧
    (transcribeAudioRemote ⟨"key", some 200, .native ⟨true, 27262976⟩, fun _ => .exn "Error" false "x"⟩).result =
      .error ⟨"Error", "Erreur lors du traitement du fichier audio sur mobile."⟩ :=
  ⟨by decide, rfl, rfl, rfl⟩

/-- C2, amended: every readable audio payload over 25 MiB is rejected by
both backends before any transcription POST — zero POSTs, zero backoff
sleeps, never retried — but the RemoteRelay health-probe GET (and, for a
web URL handle, the audio-content fetch) still precedes the rejection. -/
theorem c2_oversized_rejected_before_any_post (key : String) (probe : Option Nat)
    (audio : AudioInput) (outcomes : Nat → PostOutcome)
    (speakers : List Speaker) (rand : Nat → Nat) (attempts : Nat → VendorAttempt)
    (hk : ¬ key = "") (hp : checkApiHealth probe = true)
    (hr : audioReadable audio = true) (hs : MAX_FILE_SIZE < audioSize audio) :
    transcribeAudioRemote ⟨key, probe, audio, outcomes⟩ =
      ⟨.error (normalizerWrapError audio), 1, audioGetsOf audio, 0, []⟩ ∧
    transcribeAudio ⟨key, audio, speakers, rand, attempts⟩ =
      ⟨.error (normalizerWrapError audio), 0, audioGetsOf audio, 0, []⟩ := by
  have hpa := processAudio_oversized audio hr hs
  constructor
  · simp [transcribeAudioRemote, hk, hp, hpa]
  · simp [transcribeAudio, hk, hpa]

/-- C2, witness for the amended theorem at a concrete oversized native
handle. -/
theorem c2_oversized_rejected_witness :
    (¬ "key" = "" ∧ checkApiHealth (some 200) = true ∧
      audioReadable (.native ⟨true, 27262976⟩) = true ∧
      MAX_FILE_SIZE < audioSize (.native ⟨true, 27262976⟩)) ∧
    transcribeAudioRemote ⟨"key", some 200, .native ⟨true, 27262976⟩, fun _ => .exn "Error" false "x"⟩ =
      ⟨.error (normalizerWrapError (.native ⟨true, 27262976⟩)), 1, audioGetsOf (.native ⟨true, 27262976⟩), 0, []⟩ ∧
    transcribeAudio ⟨"key", .native ⟨true, 27262976⟩, [], fun _ => 0, fun _ => ⟨.exn "Error" false "x", .ok none⟩⟩ =
      ⟨.error (normalizerWrapError (.native ⟨true, 27262976⟩)), 0, audioGetsOf (.native ⟨true, 27262976⟩), 0, []⟩ := by
  refine ⟨⟨by decide, rfl, rfl, by decide⟩, ?_, ?_⟩
  · exact (c2_oversized_rejected_before_any_post "key" (some 200) (.native ⟨true, 27262976⟩)
      (fun _ => .exn "Error" false "x") [] (fun _ => 0)
      (fun _ => ⟨.exn "Error" false "x", .ok none⟩) (by decide) rfl rfl (by decide)).1
  · exact (c2_oversized_rejected_before_any_post "key" (some 200) (.native ⟨true, 27262976⟩)
      (fun _ => .exn "Error" false "x") [] (fun _ => 0)
      (fun _ => ⟨.exn "Error" false "x", .ok none⟩) (by decide) rfl rfl (by decide)).2

/-- C6: when every attempt times out (the fetch aborts with an
`AbortError`), the number of POSTs does equal the attempt cap (2 remote,
3 vendor) — but the surfaced error is NOT Timeout-classified: the catch
rewrote `lastError` into a French message containing neither the name
`AbortError` nor the substring `timeout`, so the final classification
chain falls through to the generic/unknown branch on both backends. -/
theorem c6_all_timeouts_exhaust_cap_but_unclassified :
    (remoteLoop (fun _ => .exn "AbortError" true "The user aborted a request.")).posts = 2 ∧
    (remoteLoop (fun _ => .exn "AbortError" true "The user aborted a request.")).delays = [1000] ∧
    (remoteLoop (fun _ => .exn "AbortError" true "The user aborted a request.")).result =
      .error ⟨"Error", "Erreur lors de la transcription: Délai d'attente dépassé - Le service de transcription met trop de temps à répondre"⟩ ∧
    remoteFinalBranch (remoteLastError ⟨"AbortError", true, "The user aborted a request."⟩) = .unknown ∧
    (vendorLoop [] (fun _ => 0) (fun _ => ⟨.exn "AbortError" true "The user aborted a request.", .ok none⟩)).posts = 3 ∧
    (vendorLoop [] (fun _ => 0) (fun _ => ⟨.exn "AbortError" true "The user aborted a request.", .ok none⟩)).delays = [2000, 4000] ∧
    (vendorLoop [] (fun _ => 0) (fun _ => ⟨.exn "AbortError" true "The user aborted a request.", .ok none⟩)).result =
      .error ⟨"Error", "Délai d'attente dépassé - L'API OpenAI met trop de temps à répondre"⟩ ∧
    vendorFinalBranch (vendorLastError ⟨"AbortError", true, "The user aborted a request."⟩) = .unknown :=
  ⟨rfl, rfl, rfl, rfl, rfl, rfl, rfl, rfl⟩

/-- C7: zero-length and missing native handles do fail pre-POST and are
never retried (0 POSTs), but all three validation failures — missing,
empty and over-25-MiB — surface as the same generic audio-processing
message: the specific messages (including the PayloadTooLarge one the
claim requires) are thrown inside the platform `try` and immediately
swallowed by its own `catch`, as the inner/outer evaluations show. -/
theorem c7_validation_messages_swallowed :
    transcribeAudio ⟨"key", .native ⟨false, 5⟩, [], fun _ => 0, fun _ => ⟨.exn "Error" false "x", .ok none⟩⟩ =
      ⟨.error ⟨"Error", "Erreur lors du traitement du fichier audio sur mobile."⟩, 0, 0, 0, []⟩ ∧
    transcribeAudio ⟨"key", .native ⟨true, 0⟩, [], fun _ => 0, fun _ => ⟨.exn "Error" false "x", .ok none⟩⟩ =
      ⟨.error ⟨"Error", "Erreur lors du traitement du fichier audio sur mobile."⟩, 0, 0, 0, []⟩ ∧
    transcribeAudio ⟨"key", .native ⟨true, 27262976⟩, [], fun _ => 0, fun _ => ⟨.exn "Error" false "x", .ok none⟩⟩ =
      ⟨.error ⟨"Error", "Erreur lors du traitement du fichier audio sur mobile."⟩, 0, 0, 0, []⟩ ∧
    processAudioNativeInner ⟨false, 5⟩ = .error ⟨"Error", "Le fichier audio est introuvable"⟩ ∧
    processAudioNativeInner ⟨true, 0⟩ = .error ⟨"Error", "Le fichier audio est vide"⟩ ∧
    processAudioNativeInner ⟨true, 27262976⟩ =
      .error ⟨"Error", "Le fichier audio est trop volumineux. La taille maximale est de 25 Mo."⟩ ∧
    MAX_FILE_SIZE < 27262976 :=
  ⟨rfl, rfl, rfl, rfl, rfl, rfl, by decide⟩

/-- C3, counterexample: a vendor run whose whisper POST succeeds (raw
text "bonjour") but whose cleanup call throws a non-retryable error
("boom") fails the whole operation with that error instead of returning
the raw transcript. -/
theorem c3_cleanup_throw_fails_operation :
    (vendorLoop [] (fun _ => 0) (fun _ => ⟨.http 200 "" (some "bonjour") [], .exn "Error" "boom"⟩)).result =
      .error ⟨"Error", "boom"⟩ ∧
    (vendorLoop [] (fun _ => 0) (fun _ => ⟨.http 200 "" (some "bonjour") [], .exn "Error" "boom"⟩)).posts = 1 :=
  ⟨rfl, rfl⟩

/-- C3, amended: the fallback to the unprocessed raw text happens only
when the cleanup call completes and returns falsy content
(`formattedText || text`); a cleanup call that throws enters the retry
logic and can fail the whole operation (see the counterexample). -/
theorem c3_cleanup_content_fallback (t : String) (ht : ¬ t = "")
    (words : List Word) (speakers : List Speaker) (rand : Nat → Nat)
    (content : Option String) :
    (vendorLoop speakers rand (fun _ => ⟨.http 200 "" (some t) words, .ok content⟩)).result =
      .ok (jsOrElse content t, processWords speakers rand words) ∧
    (vendorLoop speakers rand (fun _ => ⟨.http 200 "" (some t) words, .ok content⟩)).posts = 1 := by
  have ho : vendorAttempt speakers rand ⟨.http 200 "" (some t) words, .ok content⟩ =
      .ok (jsOrElse content t, processWords speakers rand words) := by
    simp [vendorAttempt, ht]
  have h : vendorLoopAux speakers rand
      (fun _ => ⟨.http 200 "" (some t) words, .ok content⟩) 1 vendorMaxRetries =
      ⟨.ok (jsOrElse content t, processWords speakers rand words), 1, []⟩ :=
    vendorLoopAux_ok speakers rand
      (fun _ => ⟨.http 200 "" (some t) words, .ok content⟩) 1 2 _ ho
  exact ⟨by rw [vendorLoop, h], by rw [vendorLoop, h]⟩

/-- C3, witness: the amended fallback at a concrete input (cleanup
returned no content; the raw text comes back, one POST). -/
theorem c3_cleanup_content_fallback_witness :
    (¬ "bonjour" = "") ∧
    (vendorLoop [] (fun _ => 0) (fun _ => ⟨.http 200 "" (some "bonjour") [], .ok none⟩)).result =
      .ok (jsOrElse none "bonjour", processWords [] (fun _ => 0) []) ∧
    (vendorLoop [] (fun _ => 0) (fun _ => ⟨.http 200 "" (some "bonjour") [], .ok none⟩)).posts = 1 :=
  ⟨by decide,
    (c3_cleanup_content_fallback "bonjour" (by decide) [] [] (fun _ => 0) none).1,
    (c3_cleanup_content_fallback "bonjour" (by decide) [] [] (fun _ => 0) none).2⟩

/-- C4: the backoff slept before the next attempt is exactly
`min(base * 2^attempt, capMs)` for both backends — vendor with base 1000
and cap 10000 (literally the code), remote with base 500 and cap 3000:
for every attempt number n ≥ 1 the code's `min(1000*n, 3000)` coincides
with `min(500 * 2^n, 3000)`. Both delay sequences are monotone in the
attempt number and never exceed their caps. -/
theorem c4_backoff_exponential_capped (n m : Nat) (h1 : 1 ≤ n) (hnm : n ≤ m) :
    remoteBackoffDelay n = min (500 * 2 ^ n) 3000 ∧
    vendorBackoffDelay n = min (1000 * 2 ^ n) 10000 ∧
    remoteBackoffDelay n ≤ remoteBackoffDelay m ∧
    vendorBackoffDelay n ≤ vendorBackoffDelay m ∧
    remoteBackoffDelay n ≤ 3000 ∧
    vendorBackoffDelay n ≤ 10000 := by
  refine ⟨?_, ?_, ?_, ?_, ?_, ?_⟩
  · by_cases hn : n ≤ 2
    · interval_cases n
      · rfl
      · rfl
    · obtain ⟨k, rfl⟩ : ∃ k, n = k + 3 := ⟨n - 3, by omega⟩
      have hp : 1 ≤ 2 ^ k := Nat.one_le_two_pow
      have h2 : 500 * 2 ^ (k + 3) = 4000 * 2 ^ k := by ring
      show min (1000 * (k + 3)) 3000 = min (500 * 2 ^ (k + 3)) 3000
      rw [Nat.min_eq_right (by omega), Nat.min_eq_right (by omega)]
  · show min (2 ^ n * 1000) 10000 = min (1000 * 2 ^ n) 10000
    rw [Nat.mul_comm]
  · exact min_le_min (by omega) le_rfl
  · exact min_le_min
      (Nat.mul_le_mul_right 1000 (Nat.pow_le_pow_right (by omega) hnm)) le_rfl
  · exact min_le_right _ _
  · exact min_le_right _ _

/-- C4, witness at attempts 1 ≤ 2. -/
theorem c4_backoff_witness :
    (1 ≤ 1 ∧ 1 ≤ 2) ∧
    (remoteBackoffDelay 1 = min (500 * 2 ^ 1) 3000 ∧
     vendorBackoffDelay 1 = min (1000 * 2 ^ 1) 10000 ∧
     remoteBackoffDelay 1 ≤ remoteBackoffDelay 2 ∧
     vendorBackoffDelay 1 ≤ vendorBackoffDelay 2 ∧
     remoteBackoffDelay 1 ≤ 3000 ∧
     vendorBackoffDelay 1 ≤ 10000) :=
  ⟨⟨by decide, by decide⟩, c4_backoff_exponential_capped 1 2 (by decide) (by decide)⟩

/-- C5, counterexample: a vendor run whose backend answers HTTP 401 with
error-body text "Network error" on every attempt makes three POSTs, not
one — the retry decision reads the message text, and the 401 message
contains the retryable marker — even though the surfaced error is still
the authentication one. -/
theorem c5_vendor_401_network_body_retried :
    (vendorLoop [] (fun _ => 0) (fun _ => ⟨.http 401 "Network error" none [], .ok none⟩)).posts = 3 ∧
    (vendorLoop [] (fun _ => 0) (fun _ => ⟨.http 401 "Network error" none [], .ok none⟩)).delays = [2000, 4000] ∧
    (vendorLoop [] (fun _ => 0) (fun _ => ⟨.http 401 "Network error" none [], .ok none⟩)).result =
      .error ⟨"Error", "Erreur d'authentification API. Veuillez vérifier votre clé API."⟩ :=
  ⟨rfl, rfl, rfl⟩

/-- C5, amended: a first-attempt HTTP 401 is terminal after exactly one
POST with an AuthenticationError on the remote backend unconditionally
(the 401 is mapped to the fixed marker `AUTHENTICATION_ERROR` before the
retry check), and on the vendor backend provided the composed error
message contains none of the retryable markers `Network`,
`ECONNREFUSED`, `timeout`, `Failed to fetch`. -/
theorem c5_first_401_single_post_auth (outcomes : Nat → PostOutcome) (body : String)
    (txt : Option String) (h : outcomes 1 = .http 401 body txt)
    (speakers : List Speaker) (rand : Nat → Nat) (attempts : Nat → VendorAttempt)
    (b2 : String) (t2 : Option String) (w2 : List Word) (cu : CleanupOutcome)
    (h2 : attempts 1 = ⟨.http 401 b2 t2 w2, cu⟩)
    (hn : jsIncludes ("API request failed with status 401: " ++ b2) "Network" = false)
    (he : jsIncludes ("API request failed with status 401: " ++ b2) "ECONNREFUSED" = false)
    (hti : jsIncludes ("API request failed with status 401: " ++ b2) "timeout" = false)
    (hf : jsIncludes ("API request failed with status 401: " ++ b2) "Failed to fetch" = false) :
    (remoteLoop outcomes).posts = 1 ∧
    (remoteLoop outcomes).result =
      .error ⟨"Error", "Erreur d'authentification API. Veuillez vérifier votre clé API dans les paramètres."⟩ ∧
    remoteFinalBranch ⟨"Error", "AUTHENTICATION_ERROR"⟩ = .authenticationError ∧
    (vendorLoop speakers rand attempts).posts = 1 ∧
    (vendorLoop speakers rand attempts).result =
      .error ⟨"Error", "Erreur d'authentification API. Veuillez vérifier votre clé API."⟩ ∧
    vendorFinalBranch ⟨"Error", "API request failed with status 401: " ++ b2⟩ = .authenticationError := by
  have ho : remoteAttempt (outcomes 1) = .error ⟨"Error", false, "AUTHENTICATION_ERROR"⟩ := by
    rw [h]; rfl
  have hb : remoteLoopAux outcomes 1 remoteMaxRetries =
      ⟨.error (remoteFinalThrow (remoteLastError ⟨"Error", false, "AUTHENTICATION_ERROR"⟩)), 1, []⟩ :=
    remoteLoopAux_break outcomes 1 1 _ ho rfl
  have ho2 : vendorAttempt speakers rand (attempts 1) =
      .error ⟨"Error", false, "API request failed with status 401: " ++ b2⟩ := by
    rw [h2]; rfl
  have hwr : vendorWillRetry ⟨"Error", false, "API request failed with status 401: " ++ b2⟩ = false := by
    simp [vendorWillRetry, vendorIsRetryable, vendorLastError, hn, he, hti, hf]
  have hb2 : vendorLoopAux speakers rand attempts 1 vendorMaxRetries =
      ⟨.error (vendorFinalThrow (vendorLastError
        ⟨"Error", false, "API request failed with status 401: " ++ b2⟩)), 1, []⟩ :=
    vendorLoopAux_break speakers rand attempts 1 2 _ ho2 hwr
  have h401 : jsIncludes ("API request failed with status 401: " ++ b2) "401" = true :=
    jsIncludes_append_left _ b2 _ (by decide)
  have hcat : vendorFinalBranch ⟨"Error", "API request failed with status 401: " ++ b2⟩ =
      .authenticationError := by
    simp [vendorFinalBranch, h401]
  have hthrow : vendorFinalThrow (vendorLastError ⟨"Error", false, "API request failed with status 401: " ++ b2⟩) =
      ⟨"Error", "Erreur d'authentification API. Veuillez vérifier votre clé API."⟩ := by
    show vendorFinalThrow ⟨"Error", "API request failed with status 401: " ++ b2⟩ = _
    unfold vendorFinalThrow
    rw [hcat]
  refine ⟨?_, ?_, rfl, ?_, ?_, hcat⟩
  · rw [remoteLoop, hb]
  · rw [remoteLoop, hb]; rfl
  · rw [vendorLoop, hb2]
  · rw [vendorLoop, hb2, hthrow]

/-- C5, witness at a concrete 401 with a marker-free error body. -/
theorem c5_first_401_single_post_auth_witness :
    (jsIncludes ("API request failed with status 401: " ++ "x") "Network" = false ∧
     jsIncludes ("API request failed with status 401: " ++ "x") "ECONNREFUSED" = false ∧
     jsIncludes ("API request failed with status 401: " ++ "x") "timeout" = false ∧
     jsIncludes ("API request failed with status 401: " ++ "x") "Failed to fetch" = false) ∧
    (remoteLoop (fun _ => .http 401 "x" none)).posts = 1 ∧
    (remoteLoop (fun _ => .http 401 "x" none)).result =
      .error ⟨"Error", "Erreur d'authentification API. Veuillez vérifier votre clé API dans les paramètres."⟩ ∧
    (vendorLoop [] (fun _ => 0) (fun _ => ⟨.http 401 "x" none [], .ok none⟩)).posts = 1 ∧
    (vendorLoop [] (fun _ => 0) (fun _ => ⟨.http 401 "x" none [], .ok none⟩)).result =
      .error ⟨"Error", "Erreur d'authentification API. Veuillez vérifier votre clé API."⟩ := by
  have h := c5_first_401_single_post_auth (fun _ => .http 401 "x" none) "x" none rfl
    [] (fun _ => 0) (fun _ => ⟨.http 401 "x" none [], .ok none⟩) "x" none [] (.ok none) rfl
    (by decide) (by decide) (by decide) (by decide)
  exact ⟨⟨by decide, by decide, by decide, by decide⟩, h.1, h.2.1, h.2.2.2.1, h.2.2.2.2.1⟩

/-- Helper for C8: as long as every gap stays strictly below 2 seconds,
the heuristic loop never takes its reassignment branch, so every
processed word keeps the incoming current-speaker tag. -/
theorem processWordsAux_speaker_const (speakers : List Speaker) (rand : Nat → Nat) :
    ∀ (ws : List Word) (cur : Option String) (t : ℚ) (k : Nat),
      gapsLT2 t ws = true →
      (processWordsAux speakers rand ws cur t k).all (fun pw => pw.speakerId == cur) = true := by
  intro ws
  induction ws with
  | nil => intro cur t k _; rfl
  | cons w ws ih =>
      intro cur t k h
      simp only [gapsLT2, Bool.and_eq_true, decide_eq_true_eq] at h
      have hng : ¬ (w.start - t > 2) := lt_asymm h.1
      simp only [processWordsAux, if_neg hng, List.all_cons, Bool.and_eq_true]
      exact ⟨by simp, ih cur w.end_ k h.2⟩

/-- C8: when all inter-word gaps (the first measured from time 0) are
strictly below 2 seconds, every processed word carries the initial
speaker tag `speakers[0]?.id` — a single unchanged speaker throughout,
for every speaker set and every random oracle. -/
theorem c8_small_gaps_single_speaker (speakers : List Speaker) (rand : Nat → Nat)
    (words : List Word) (h : gapsLT2 0 words = true) :
    (processWords speakers rand words).all
      (fun pw => pw.speakerId == (speakers.get? 0).map Speaker.id) = true :=
  processWordsAux_speaker_const speakers rand words _ 0 0 h

/-- C8, witness: a three-word transcript with one-second gaps keeps the
first speaker's tag on every word. -/
theorem c8_small_gaps_single_speaker_witness :
    gapsLT2 0 [⟨"bonjour", 1, 2⟩, ⟨"le", 3, 4⟩, ⟨"monde", 5, 6⟩] = true ∧
    (processWords [⟨"s1"⟩, ⟨"s2"⟩] (fun _ => 1)
        [⟨"bonjour", 1, 2⟩, ⟨"le", 3, 4⟩, ⟨"monde", 5, 6⟩]).all
      (fun pw => pw.speakerId == (([⟨"s1"⟩, ⟨"s2"⟩] : List Speaker).get? 0).map Speaker.id) = true := by
  have hg : gapsLT2 0 [⟨"bonjour", 1, 2⟩, ⟨"le", 3, 4⟩, ⟨"monde", 5, 6⟩] = true := by
    norm_num [gapsLT2]
  exact ⟨hg, c8_small_gaps_single_speaker [⟨"s1"⟩, ⟨"s2"⟩] (fun _ => 1) _ hg⟩

/-- Helper for C9: the remote loop consumes its outcome stream pointwise,
so pointwise-equal streams generate identical traces. -/
theorem remoteLoopAux_congr (f g : Nat → PostOutcome) (h : ∀ n, f n = g n) :
    ∀ (fuel attempt : Nat), remoteLoopAux f attempt fuel = remoteLoopAux g attempt fuel := by
  intro fuel
  induction fuel with
  | zero => intro attempt; rfl
  | succ fuel ih =>
      intro attempt
      simp only [remoteLoopAux, h attempt, ih (attempt + 1)]

/-- C9, counterexample: two raw failure signals that the final chain
classifies identically (both fall through to the generic category) but
that the retry logic treats differently — an HTTP 418 response is not
retried while an `ECONNREFUSED` exception is (2 POSTs vs 1) — so the
surfaced category alone does not determine retryability. -/
theorem c9_category_does_not_determine_retry :
    remoteFinalBranch (remoteLastError ⟨"Error", false, "API request failed with status 418: I am a teapot"⟩) =
      remoteFinalBranch (remoteLastError ⟨"Error", false, "connect ECONNREFUSED 127.0.0.1:443"⟩) ∧
    remoteWillRetry ⟨"Error", false, "API request failed with status 418: I am a teapot"⟩ = false ∧
    remoteWillRetry ⟨"Error", false, "connect ECONNREFUSED 127.0.0.1:443"⟩ = true ∧
    (remoteLoop (fun _ => .http 418 "I am a teapot" none)).posts = 1 ∧
    (remoteLoop (fun _ => .exn "Error" false "connect ECONNREFUSED 127.0.0.1:443")).posts = 2 :=
  ⟨rfl, rfl, rfl, rfl, rfl⟩

/-- C9, amended: classification and the retry decision are deterministic
— they are pure functions of the raw failure signal, and whole remote
runs over pointwise-equal outcome streams coincide exactly — but (see
the counterexample) the surfaced category alone does not determine
retryability, which is decided from the raw message text instead. -/
theorem c9_deterministic_runs (f g : Nat → PostOutcome) (h : ∀ n, f n = g n) :
    remoteLoop f = remoteLoop g :=
  remoteLoopAux_congr f g h remoteMaxRetries 1

/-- C9, witness: determinism applied to a concrete constant stream. -/
theorem c9_deterministic_runs_witness :
    remoteLoop (fun _ => .http 418 "teapot" none) = remoteLoop (fun _ => .http 418 "teapot" none) :=
  c9_deterministic_runs (fun _ => .http 418 "teapot" none) (fun _ => .http 418 "teapot" none)
    (fun _ => rfl)

/-- Helper for C10: with an empty speaker list both the incoming `none`
tag and every reassignment (`speakers[random]?.id` on `[]`) are `none`,
and the loop is length-preserving. -/
theorem processWordsAux_empty_speakers (rand : Nat → Nat) :
    ∀ (ws : List Word) (t : ℚ) (k : Nat),
      (processWordsAux [] rand ws none t k).all (fun pw => pw.speakerId.isNone) = true ∧
      (processWordsAux [] rand ws none t k).length = ws.length := by
  intro ws
  induction ws with
  | nil => intro t k; exact ⟨rfl, rfl⟩
  | cons w ws ih =>
      intro t k
      by_cases hgap : w.start - t > 2
      · have hcur : (Option.map Speaker.id (([] : List Speaker).get? (rand k))) = none := rfl
        simp only [processWordsAux, if_pos hgap, hcur, List.all_cons, List.length_cons,
          Bool.and_eq_true]
        exact ⟨⟨rfl, (ih w.end_ (k + 1)).1⟩, by rw [(ih w.end_ (k + 1)).2]⟩
      · simp only [processWordsAux, if_neg hgap, List.all_cons, List.length_cons,
          Bool.and_eq_true]
        exact ⟨⟨rfl, (ih w.end_ k).1⟩, by rw [(ih w.end_ k).2]⟩

/-- C10: with an empty speakers list the vendor word post-processing is
total and never fails: the initial current speaker `speakers[0]?.id` is
the undefined tag, every returned word carries an undefined `speakerId`,
and exactly one processed word is produced per input word — for every
random oracle and every word list. -/
theorem c10_empty_speakers_total (rand : Nat → Nat) (words : List Word) :
    ((([] : List Speaker).get? 0).map Speaker.id = none) ∧
    (processWords [] rand words).all (fun pw => pw.speakerId.isNone) = true ∧
    (processWords [] rand words).length = words.length :=
  ⟨rfl, (processWordsAux_empty_speakers rand words 0 0).1,
    (processWordsAux_empty_speakers rand words 0 0).2⟩
